import Mathlib

/-!
Shallow embedding of `redisco/models/attributes.py` (the field/attribute layer
of the redisco object mapper) and proofs about its typecast, validation and
descriptor-caching behaviour.

Python integers are modelled as `Int`/`Nat`, Python decimal strings are built
from explicit digit lists, Python floats appearing as field values are
modelled as exact decimal numbers (sign, integer part, fractional digit list)
whose numeric value is a rational; raising an exception is modelled with
`Except`.
-/

namespace Redisco

/-- Python exception kinds raised (or swallowed) by the attribute layer. -/
inductive PyErr where
  | typeError
  | valueError
  | attributeError
deriving DecidableEq

/-! ## Decimal rendering and parsing of numbers

Python renders a nonnegative integer as its decimal digits (`str(n)`), and
`int(raw)` / `float(raw)` parse decimal strings back.  We build the digit
list most-significant first, with an explicit fuel argument so that the
function reduces definitionally. -/

/-- Decimal digit characters of `n`, most significant first; `fuel` bounds the
recursion depth and is irrelevant as long as it exceeds `n`. -/
def natDigitsAux : Nat → Nat → List Char
  | 0, _ => []
  | fuel + 1, n =>
    if n < 10 then [Nat.digitChar n]
    else natDigitsAux fuel (n / 10) ++ [Nat.digitChar (n % 10)]

/-- Decimal digit characters of `n`, most significant first: the characters of
Python `str(n)` for a nonnegative integer `n`. -/
def natDigits (n : Nat) : List Char := natDigitsAux (n + 1) n

theorem natDigitsAux_irrel (n : Nat) :
    ∀ f g, n < f → n < g → natDigitsAux f n = natDigitsAux g n := by
  induction n using Nat.strong_induction_on with
  | _ n ih =>
    intro f g hf hg
    cases f with
    | zero => omega
    | succ f =>
      cases g with
      | zero => omega
      | succ g =>
        simp only [natDigitsAux]
        by_cases h10 : n < 10
        · simp [h10]
        · have hlt : n / 10 < n := Nat.div_lt_self (by omega) (by omega)
          simp only [if_neg h10]
          rw [ih (n / 10) hlt f g (by omega) (by omega)]

theorem natDigits_of_lt (n : Nat) (h : n < 10) : natDigits n = [Nat.digitChar n] := by
  simp [natDigits, natDigitsAux, h]

theorem natDigits_of_ge (n : Nat) (h : 10 ≤ n) :
    natDigits n = natDigits (n / 10) ++ [Nat.digitChar (n % 10)] := by
  have h1 : natDigits n = natDigitsAux n (n / 10) ++ [Nat.digitChar (n % 10)] := by
    simp [natDigits, natDigitsAux, Nat.not_lt.mpr h]
  have hlt : n / 10 < n := Nat.div_lt_self (by omega) (by omega)
  rw [h1, natDigitsAux_irrel (n / 10) n (n / 10 + 1) hlt (by omega)]
  rfl

theorem natDigits_ne_nil (n : Nat) : natDigits n ≠ [] := by
  by_cases h : n < 10
  · rw [natDigits_of_lt n h]; simp
  · rw [natDigits_of_ge n (by omega)]; simp

theorem digitChar_bounds (d : Nat) (h : d < 10) :
    48 ≤ (Nat.digitChar d).toNat ∧ (Nat.digitChar d).toNat ≤ 57 := by
  interval_cases d <;> decide

theorem natDigits_mem_bounds (n : Nat) :
    ∀ c ∈ natDigits n, 48 ≤ c.toNat ∧ c.toNat ≤ 57 := by
  induction n using Nat.strong_induction_on with
  | _ n ih =>
    intro c hc
    by_cases h : n < 10
    · rw [natDigits_of_lt n h] at hc
      simp at hc
      subst hc
      exact digitChar_bounds n h
    · rw [natDigits_of_ge n (by omega)] at hc
      rcases List.mem_append.mp hc with h1 | h1
      · exact ih (n / 10) (Nat.div_lt_self (by omega) (by omega)) c h1
      · simp at h1
        subst h1
        exact digitChar_bounds (n % 10) (Nat.mod_lt _ (by omega))

theorem natDigits_no_dot (n : Nat) : '.' ∉ natDigits n := by
  intro hmem
  have h2 := natDigits_mem_bounds n '.' hmem
  exact absurd h2 (by decide)

/-- Numeric value of one ASCII decimal digit character, `none` on anything
else: the per-character step of Python int/float string parsing. -/
def digitVal (c : Char) : Option Nat :=
  if 48 ≤ c.toNat ∧ c.toNat ≤ 57 then some (c.toNat - 48) else none

theorem digitVal_digitChar (d : Nat) (h : d < 10) :
    digitVal (Nat.digitChar d) = some d := by
  interval_cases d <;> decide

/-- Parse a run of decimal digit characters, accumulating left-to-right as
Python does; `none` when a non-digit character occurs. -/
def parseNatAux : List Char → Nat → Option Nat
  | [], acc => some acc
  | c :: cs, acc =>
    match digitVal c with
    | some d => parseNatAux cs (acc * 10 + d)
    | none => none

/-- Parse a nonempty all-digit string as a natural number (Python `int` on a
nonnegative literal). -/
def parseNatStrict (cs : List Char) : Option Nat :=
  if cs = [] then none else parseNatAux cs 0

theorem parseNatAux_append (xs ys : List Char) :
    ∀ acc, parseNatAux (xs ++ ys) acc =
      (parseNatAux xs acc).bind (fun a => parseNatAux ys a) := by
  induction xs with
  | nil => intro acc; simp [parseNatAux]
  | cons c cs ih =>
    intro acc
    cases hd : digitVal c <;> simp [parseNatAux, hd, ih]

theorem parseNatAux_natDigits (n : Nat) :
    ∀ acc, parseNatAux (natDigits n) acc = some (acc * 10 ^ (natDigits n).length + n) := by
  induction n using Nat.strong_induction_on with
  | _ n ih =>
    intro acc
    by_cases h : n < 10
    · rw [natDigits_of_lt n h]
      simp [parseNatAux, digitVal_digitChar n h]
    · rw [natDigits_of_ge n (by omega)]
      rw [parseNatAux_append]
      rw [ih (n / 10) (Nat.div_lt_self (by omega) (by omega)) acc]
      have hd : digitVal (Nat.digitChar (n % 10)) = some (n % 10) :=
        digitVal_digitChar (n % 10) (Nat.mod_lt _ (by omega))
      simp only [Option.some_bind, parseNatAux, hd]
      congr 1
      have hdm : 10 * (n / 10) + n % 10 = n := Nat.div_add_mod n 10
      have hlen : (natDigits (n / 10) ++ [Nat.digitChar (n % 10)]).length
          = (natDigits (n / 10)).length + 1 := by simp
      rw [hlen, pow_succ, ← mul_assoc]
      generalize acc * (10 : Nat) ^ (natDigits (n / 10)).length = M
      omega

theorem parseNatAux_natDigits_zero (n : Nat) :
    parseNatAux (natDigits n) 0 = some n := by
  rw [parseNatAux_natDigits n 0]
  simp

theorem parseNatStrict_natDigits (n : Nat) :
    parseNatStrict (natDigits n) = some n := by
  rw [parseNatStrict, if_neg (natDigits_ne_nil n)]
  exact parseNatAux_natDigits_zero n

/-- Length of the decimal digit list is determined by the magnitude of `n`. -/
theorem natDigits_length_eq (k : Nat) :
    ∀ n, 10 ^ k ≤ n → n < 10 ^ (k + 1) → (natDigits n).length = k + 1 := by
  induction k with
  | zero =>
    intro n h1 h2
    rw [natDigits_of_lt n (by simpa using h2)]
    rfl
  | succ k ih =>
    intro n h1 h2
    have hge : 10 ≤ n := le_trans (Nat.le_self_pow (by omega) 10) h1
    rw [natDigits_of_ge n hge]
    have hd1 : 10 ^ k ≤ n / 10 := by
      rw [Nat.le_div_iff_mul_le (by omega)]
      calc 10 ^ k * 10 = 10 ^ (k + 1) := (pow_succ 10 k).symm
        _ ≤ n := h1
    have hd2 : n / 10 < 10 ^ (k + 1) := by
      rw [Nat.div_lt_iff_lt_mul (by omega)]
      calc n < 10 ^ (k + 2) := h2
        _ = 10 ^ (k + 1) * 10 := by ring
    simp [ih (n / 10) hd1 hd2]

/-! ## Python `int()` and `float()` on strings -/

/-- Python `str(n)` for an integer: a minus sign for negatives, then the
decimal digits. -/
def pyStrInt (n : Int) : String :=
  ⟨(if n < 0 then ['-'] else []) ++ natDigits n.natAbs⟩

/-- Python `int(raw)` on the characters of a decimal string: optional sign
followed by digits; `none` models a ValueError. -/
def pyIntChars (cs : List Char) : Option Int :=
  match cs with
  | [] => none
  | c :: rest =>
    if c = '-' then (parseNatStrict rest).map (fun n => -(n : Int))
    else if c = '+' then (parseNatStrict rest).map (fun n => (n : Int))
    else (parseNatStrict (c :: rest)).map (fun n => (n : Int))

/-- Split a character list at the first dot; `none` when no dot occurs. -/
def splitDot : List Char → Option (List Char × List Char)
  | [] => none
  | c :: cs =>
    if c = '.' then some ([], cs)
    else (splitDot cs).map (fun p => (c :: p.1, p.2))

theorem splitDot_append (xs ys : List Char) (h : '.' ∉ xs) :
    splitDot (xs ++ '.' :: ys) = some (xs, ys) := by
  induction xs with
  | nil => simp [splitDot]
  | cons c cs ih =>
    have hc : c ≠ '.' := fun hc => h (hc ▸ List.mem_cons_self c cs)
    have hcs : '.' ∉ cs := fun hm => h (List.mem_cons_of_mem c hm)
    simp [splitDot, hc, ih hcs]

/-- Parse an unsigned decimal numeral, with or without a dot, as an exact
rational: the numeric value Python `float()` assigns to the string (the model
treats the conversion as exact; binary double rounding is not modelled). -/
def parseUnsignedDec (cs : List Char) : Option ℚ :=
  match splitDot cs with
  | none => (parseNatStrict cs).map (fun n => (n : ℚ))
  | some (ip, fp) =>
    if ip = [] ∧ fp = [] then none
    else
      match parseNatAux ip 0, parseNatAux fp 0 with
      | some i, some f => some ((i : ℚ) + (f : ℚ) / (10 : ℚ) ^ fp.length)
      | _, _ => none

/-- Parse a decimal numeral with optional sign as an exact rational. -/
def parseFloatChars (cs : List Char) : Option ℚ :=
  match cs with
  | [] => none
  | c :: rest =>
    if c = '-' then (parseUnsignedDec rest).map (fun q => -q)
    else if c = '+' then parseUnsignedDec rest
    else parseUnsignedDec (c :: rest)

/-- Python `float(value)` where `value` is either a string or `None` (the
non-string case): `None` raises TypeError, an unparsable string raises
ValueError. -/
def pyFloat : Option String → Except PyErr ℚ
  | none => .error .typeError
  | some s =>
    match parseFloatChars s.data with
    | some q => .ok q
    | none => .error .valueError

/-! ## Python float values

A Python float appearing as a field value is modelled as an exact decimal
number: sign, integer part and the fractional digit list its `str()` prints.
Python 2's `str` rounds a double to 12 significant digits; the model treats
the printed decimal as the exact value of the float, so binary rounding
artefacts are outside the model. -/

structure PyFloat where
  neg : Bool
  ip : Nat
  frac : List Nat
deriving DecidableEq

/-- Numeric interpretation of a digit list read left to right. -/
def digitsVal (ds : List Nat) : Nat := ds.foldl (fun acc d => acc * 10 + d) 0

/-- Exact rational value of the modelled float. -/
def PyFloat.val (f : PyFloat) : ℚ :=
  (if f.neg then -1 else 1) *
    ((f.ip : ℚ) + (digitsVal f.frac : ℚ) / (10 : ℚ) ^ f.frac.length)

/-- Characters of Python `str(value)` for the modelled float: sign, integer
part, a dot, then the fractional digits (a lone `0` when there are none,
as in `str(3.0) = "3.0"`). -/
def PyFloat.renderChars (f : PyFloat) : List Char :=
  (if f.neg then ['-'] else []) ++ natDigits f.ip ++
    '.' :: (if f.frac = [] then ['0'] else f.frac.map Nat.digitChar)

/-- Python `str(value)` for the modelled float. -/
def PyFloat.render (f : PyFloat) : String := ⟨f.renderChars⟩

theorem parseNatAux_digitMap (ds : List Nat) (hwf : ∀ d ∈ ds, d < 10) :
    ∀ acc, parseNatAux (ds.map Nat.digitChar) acc =
      some (ds.foldl (fun a d => a * 10 + d) acc) := by
  induction ds with
  | nil => intro acc; simp [parseNatAux]
  | cons d ds ih =>
    intro acc
    have hd : d < 10 := hwf d (List.mem_cons_self d ds)
    have hds : ∀ x ∈ ds, x < 10 := fun x hx => hwf x (List.mem_cons_of_mem d hx)
    simp [parseNatAux, digitVal_digitChar d hd, ih hds]

/-! ## Scalar field typecasts (attributes.py lines 70-155)

`typecast_for_storage` takes the in-memory value (`none` models Python
`None`), `typecast_for_read` takes the raw value fetched from the store. -/

/-- BooleanField.typecast_for_storage (lines 74-77). -/
def BooleanField.typecast_for_storage : Option Bool → String
  | none => "0"
  | some b => if b then "1" else "0"

/-- BooleanField.typecast_for_read (lines 71-72): `bool(int(value))`. -/
def BooleanField.typecast_for_read (raw : String) : Except PyErr Bool :=
  match pyIntChars raw.data with
  | some n => .ok (decide (n ≠ 0))
  | none => .error .valueError

/-- IntegerField.typecast_for_storage (lines 87-90): `"0"` for `None`, else
`str(value)`. -/
def IntegerField.typecast_for_storage : Option Int → String
  | none => "0"
  | some n => pyStrInt n

/-- IntegerField.typecast_for_read (lines 84-85): `int(value)`. -/
def IntegerField.typecast_for_read (raw : String) : Except PyErr Int :=
  match pyIntChars raw.data with
  | some n => .ok n
  | none => .error .valueError

/-- FloatField.typecast_for_storage (lines 100-103): `"0"` for `None`, else
`str(value)`. -/
def FloatField.typecast_for_storage : Option PyFloat → String
  | none => "0"
  | some f => f.render

/-- FloatField.typecast_for_read (lines 97-98): `float(value)`, yielding the
exact rational value of the raw decimal string. -/
def FloatField.typecast_for_read (raw : String) : Except PyErr ℚ :=
  match parseFloatChars raw.data with
  | some q => .ok q
  | none => .error .valueError

/-! ## DateTimeField and DateField (attributes.py lines 108-155)

A datetime value is modelled by its epoch second (`time.mktime` of its
timetuple, which drops microseconds) and its microsecond component; a date
value by its epoch day (`time.mktime` of its timetuple is midnight of that
day, `86400 * day` in a fixed UTC-like timezone).  Timestamps are taken
nonnegative (post-1970). -/

structure PyDatetime where
  sec : Nat
  microsecond : Nat
deriving DecidableEq

structure PyDate where
  day : Nat
deriving DecidableEq

/-- `datetime.fromtimestamp(q)`: whole seconds and the fractional part
rounded to microseconds. -/
def datetime_fromtimestamp (q : ℚ) : PyDatetime :=
  { sec := (⌊q⌋).toNat
    microsecond := (round ((q - (⌊q⌋ : ℚ)) * 1000000)).toNat }

/-- `date.fromtimestamp(q)`: the day containing the timestamp. -/
def date_fromtimestamp (q : ℚ) : PyDate :=
  { day := (⌊q⌋).toNat / 86400 }

/-- `isinstance(value, datetime)`: Python `None` is not a datetime. -/
def isinstance_datetime : Option PyDatetime → Bool
  | none => false
  | some _ => true

/-- `isinstance(value, date)`: Python `None` is not a date. -/
def isinstance_date : Option PyDate → Bool
  | none => false
  | some _ => true

/-- DateTimeField.typecast_for_storage (lines 121-127): the isinstance check
comes first, so the `value is None` branch (returning no stored value) is
dead code and `None` raises TypeError; a datetime is rendered as
`"%d.%d" % (time.mktime(value.timetuple()), value.microsecond)`. -/
def DateTimeField.typecast_for_storage (value : Option PyDatetime) :
    Except PyErr (Option String) :=
  if ¬ isinstance_datetime value then .error .typeError
  else
    match value with
    | none => .ok none
    | some d => .ok (some ⟨natDigits d.sec ++ '.' :: natDigits d.microsecond⟩)

/-- DateTimeField.typecast_for_read (lines 115-119):
`datetime.fromtimestamp(float(value))` under `except TypeError, ValueError`,
which in Python 2 catches ONLY TypeError (binding it to the name ValueError),
so a ValueError from `float` propagates. -/
def DateTimeField.typecast_for_read (value : Option String) :
    Except PyErr (Option PyDatetime) :=
  match pyFloat value with
  | .ok q => .ok (some (datetime_fromtimestamp q))
  | .error .typeError => .ok none
  | .error e => .error e

/-- DateField.typecast_for_storage (lines 146-152): as for datetime the
isinstance check precedes the dead `value is None` branch, so `None` raises
TypeError; a date is rendered as `"%f" % time.mktime(value.timetuple())`,
which prints six fractional digits. -/
def DateField.typecast_for_storage (value : Option PyDate) :
    Except PyErr (Option String) :=
  if ¬ isinstance_date value then .error .typeError
  else
    match value with
    | none => .ok none
    | some d =>
      .ok (some ⟨natDigits (86400 * d.day) ++ '.' :: ['0', '0', '0', '0', '0', '0']⟩)

/-- DateField.typecast_for_read (lines 140-144): `date.fromtimestamp(float(value))`
with the same Python 2 `except TypeError, ValueError` slip as DateTimeField. -/
def DateField.typecast_for_read (value : Option String) :
    Except PyErr (Option PyDate) :=
  match pyFloat value with
  | .ok q => .ok (some (date_fromtimestamp q))
  | .error .typeError => .ok none
  | .error e => .error e

/-! ## Round-trip lemmas for the scalar typecast pairs -/

theorem natDigits_head_ne (n : Nat) (c : Char) (cs : List Char)
    (h : natDigits n = c :: cs) : c ≠ '-' ∧ c ≠ '+' := by
  have hc : c ∈ natDigits n := by rw [h]; exact List.mem_cons_self c cs
  have hb := natDigits_mem_bounds n c hc
  constructor <;> intro he <;> subst he <;> revert hb <;> decide

theorem pyIntChars_natDigits (m : Nat) : pyIntChars (natDigits m) = some (m : Int) := by
  cases hnd : natDigits m with
  | nil => exact absurd hnd (natDigits_ne_nil m)
  | cons c cs =>
    obtain ⟨h1, h2⟩ := natDigits_head_ne m c cs hnd
    rw [← hnd]
    have hm := parseNatStrict_natDigits m
    rw [hnd] at hm ⊢
    simp [pyIntChars, h1, h2, hm]

theorem IntegerField.roundtrip_int (n : Int) :
    IntegerField.typecast_for_read (IntegerField.typecast_for_storage (some n)) = .ok n := by
  show IntegerField.typecast_for_read (pyStrInt n) = .ok n
  unfold IntegerField.typecast_for_read pyStrInt
  by_cases hn : n < 0
  · have habs : ((n.natAbs : Int)) = -n := by omega
    simp [hn, pyIntChars, parseNatStrict_natDigits, habs]
  · have habs : ((n.natAbs : Int)) = n := by omega
    simp [hn, pyIntChars_natDigits, habs]

instance instDecEqExcept {ε α : Type} [DecidableEq ε] [DecidableEq α] :
    DecidableEq (Except ε α) := fun x y =>
  match x, y with
  | .ok a, .ok b =>
    if h : a = b then isTrue (by rw [h]) else isFalse (fun hc => h (Except.ok.inj hc))
  | .error a, .error b =>
    if h : a = b then isTrue (by rw [h]) else isFalse (fun hc => h (Except.error.inj hc))
  | .ok _, .error _ => isFalse (fun hc => Except.noConfusion hc)
  | .error _, .ok _ => isFalse (fun hc => Except.noConfusion hc)

theorem BooleanField.roundtrip_bool (b : Bool) :
    BooleanField.typecast_for_read (BooleanField.typecast_for_storage (some b)) = .ok b := by
  cases b <;> rfl

theorem parseUnsignedDec_split (a : Nat) (fp : List Char) (v : Nat)
    (hv : parseNatAux fp 0 = some v) :
    parseUnsignedDec (natDigits a ++ '.' :: fp)
      = some ((a : ℚ) + (v : ℚ) / (10 : ℚ) ^ fp.length) := by
  unfold parseUnsignedDec
  rw [splitDot_append (natDigits a) fp (natDigits_no_dot a)]
  simp [natDigits_ne_nil a, parseNatAux_natDigits_zero a, hv]

theorem parseFloatChars_digits_head (n : Nat) (rest : List Char) :
    parseFloatChars (natDigits n ++ rest) = parseUnsignedDec (natDigits n ++ rest) := by
  cases hnd : natDigits n with
  | nil => exact absurd hnd (natDigits_ne_nil n)
  | cons c cs =>
    obtain ⟨h1, h2⟩ := natDigits_head_ne n c cs hnd
    simp [parseFloatChars, h1, h2]

theorem parseUnsignedDec_renderInner (ip : Nat) (frac : List Nat)
    (hwf : ∀ d ∈ frac, d < 10) :
    parseUnsignedDec (natDigits ip ++
        '.' :: (if frac = [] then ['0'] else frac.map Nat.digitChar))
      = some ((ip : ℚ) + (digitsVal frac : ℚ) / (10 : ℚ) ^ frac.length) := by
  by_cases hf : frac = []
  · subst hf
    rw [if_pos rfl, parseUnsignedDec_split ip ['0'] 0 (by decide)]
    simp [digitsVal]
  · rw [if_neg hf,
      parseUnsignedDec_split ip (frac.map Nat.digitChar) (digitsVal frac)
        (parseNatAux_digitMap frac hwf 0)]
    simp

theorem FloatField.float_read_eq (L : List Char) (q : ℚ) (hq : parseFloatChars L = some q) :
    FloatField.typecast_for_read ⟨L⟩ = .ok q := by
  show (match parseFloatChars L with
    | some x => Except.ok x
    | none => Except.error PyErr.valueError : Except PyErr ℚ) = .ok q
  rw [hq]

theorem DateTimeField.datetime_read_eq (L : List Char) (q : ℚ) (hq : parseFloatChars L = some q) :
    DateTimeField.typecast_for_read (some ⟨L⟩) = .ok (some (datetime_fromtimestamp q)) := by
  have h1 : pyFloat (some (⟨L⟩ : String)) = .ok q := by
    show (match parseFloatChars L with
      | some x => Except.ok x
      | none => Except.error PyErr.valueError : Except PyErr ℚ) = .ok q
    rw [hq]
  unfold DateTimeField.typecast_for_read
  rw [h1]

theorem DateField.date_read_eq (L : List Char) (q : ℚ) (hq : parseFloatChars L = some q) :
    DateField.typecast_for_read (some ⟨L⟩) = .ok (some (date_fromtimestamp q)) := by
  have h1 : pyFloat (some (⟨L⟩ : String)) = .ok q := by
    show (match parseFloatChars L with
      | some x => Except.ok x
      | none => Except.error PyErr.valueError : Except PyErr ℚ) = .ok q
    rw [hq]
  unfold DateField.typecast_for_read
  rw [h1]

theorem parseFloatChars_renderChars (f : PyFloat) (hwf : ∀ d ∈ f.frac, d < 10) :
    parseFloatChars f.renderChars = some f.val := by
  cases hneg : f.neg with
  | false =>
    have hr : f.renderChars
        = natDigits f.ip ++ '.' :: (if f.frac = [] then ['0'] else f.frac.map Nat.digitChar) := by
      simp [PyFloat.renderChars, hneg]
    rw [hr, parseFloatChars_digits_head, parseUnsignedDec_renderInner f.ip f.frac hwf]
    unfold PyFloat.val
    rw [hneg]
    norm_num
  | true =>
    have hr : f.renderChars
        = '-' :: (natDigits f.ip ++
            '.' :: (if f.frac = [] then ['0'] else f.frac.map Nat.digitChar)) := by
      simp [PyFloat.renderChars, hneg]
    rw [hr]
    rw [show parseFloatChars ('-' :: (natDigits f.ip ++
        '.' :: (if f.frac = [] then ['0'] else f.frac.map Nat.digitChar)))
      = (parseUnsignedDec (natDigits f.ip ++
        '.' :: (if f.frac = [] then ['0'] else f.frac.map Nat.digitChar))).map (fun q => -q)
      from rfl]
    rw [parseUnsignedDec_renderInner f.ip f.frac hwf]
    unfold PyFloat.val
    rw [hneg]
    simp [Option.map]

theorem FloatField.roundtrip_float (f : PyFloat) (hwf : ∀ d ∈ f.frac, d < 10) :
    FloatField.typecast_for_read (FloatField.typecast_for_storage (some f))
      = .ok f.val := by
  show FloatField.typecast_for_read f.render = .ok f.val
  exact FloatField.float_read_eq f.renderChars f.val (parseFloatChars_renderChars f hwf)

theorem DateTimeField.roundtrip_datetime (d : PyDatetime) (h1 : d.microsecond < 1000000)
    (h2 : d.microsecond = 0 ∨ 100000 ≤ d.microsecond) :
    ∃ s, DateTimeField.typecast_for_storage (some d) = .ok (some s) ∧
      DateTimeField.typecast_for_read (some s) = .ok (some d) := by
  refine ⟨⟨natDigits d.sec ++ '.' :: natDigits d.microsecond⟩, rfl, ?_⟩
  have hq : parseFloatChars (natDigits d.sec ++ '.' :: natDigits d.microsecond)
      = some ((d.sec : ℚ) +
          (d.microsecond : ℚ) / (10 : ℚ) ^ (natDigits d.microsecond).length) := by
    rw [parseFloatChars_digits_head,
      parseUnsignedDec_split d.sec (natDigits d.microsecond) d.microsecond
        (parseNatAux_natDigits_zero d.microsecond)]
  rw [DateTimeField.datetime_read_eq _ _ hq]
  refine congrArg Except.ok (congrArg some ?_)
  obtain ⟨sec, usec⟩ := d
  simp only at h1 h2 ⊢
  rcases h2 with h0 | hbig
  · subst h0
    rw [show natDigits 0 = ['0'] from rfl]
    unfold datetime_fromtimestamp
    norm_num
  · have hlen : (natDigits usec).length = 6 :=
      natDigits_length_eq 5 usec (by omega) (by norm_num; omega)
    rw [hlen]
    unfold datetime_fromtimestamp
    have hq1 : (usec : ℚ) / (10 : ℚ) ^ 6 < 1 := by
      rw [div_lt_one (by norm_num)]
      have : (usec : ℚ) < 1000000 := by exact_mod_cast h1
      linarith
    have hq0 : (0 : ℚ) ≤ (usec : ℚ) / (10 : ℚ) ^ 6 := by positivity
    have hfloor : ⌊(sec : ℚ) + (usec : ℚ) / (10 : ℚ) ^ 6⌋ = (sec : ℤ) := by
      rw [Int.floor_eq_iff]
      constructor
      · push_cast; linarith
      · push_cast; linarith
    rw [hfloor]
    have hrest : ((sec : ℚ) + (usec : ℚ) / (10 : ℚ) ^ 6 - ((sec : ℤ) : ℚ))
        * 1000000 = (usec : ℚ) := by
      push_cast
      field_simp
      ring
    rw [hrest, round_natCast]
    simp

theorem DateField.roundtrip_date (d : PyDate) :
    ∃ s, DateField.typecast_for_storage (some d) = .ok (some s) ∧
      DateField.typecast_for_read (some s) = .ok (some d) := by
  refine ⟨⟨natDigits (86400 * d.day) ++ '.' :: ['0', '0', '0', '0', '0', '0']⟩, rfl, ?_⟩
  have hq : parseFloatChars (natDigits (86400 * d.day) ++ '.' :: ['0', '0', '0', '0', '0', '0'])
      = some ((86400 * d.day : Nat) : ℚ) := by
    rw [parseFloatChars_digits_head,
      parseUnsignedDec_split (86400 * d.day) ['0', '0', '0', '0', '0', '0'] 0 (by decide)]
    norm_num
  rw [DateField.date_read_eq _ _ hq]
  refine congrArg Except.ok (congrArg some ?_)
  obtain ⟨day⟩ := d
  unfold date_fromtimestamp
  simp only [Int.floor_natCast, Int.toNat_natCast]
  exact congrArg PyDate.mk (Nat.mul_div_cancel_left day (by omega))

/-! ## Claims C1, C2, C3 -/

/-- C1 (counterexample): the read/write typecast pair does NOT round-trip for
every valid non-None scalar value.  For the datetime `1700000000` seconds and
1 microsecond, `"%d.%d"` renders the microsecond field without zero padding,
so storage yields `"1700000000.1"`, which reads back as 100000 microseconds. -/
theorem C1_roundtrip_counterexample :
    DateTimeField.typecast_for_storage (some ⟨1700000000, 1⟩)
      = .ok (some "1700000000.1") ∧
    DateTimeField.typecast_for_read (some "1700000000.1")
      = .ok (some ⟨1700000000, 100000⟩) ∧
    (⟨1700000000, 100000⟩ : PyDatetime) ≠ ⟨1700000000, 1⟩ := by
  have hstr : ("1700000000.1" : String) = ⟨natDigits 1700000000 ++ '.' :: natDigits 1⟩ := by
    decide
  refine ⟨by rw [hstr]; rfl, ?_, by decide⟩
  rw [hstr]
  have hq : parseFloatChars (natDigits 1700000000 ++ '.' :: natDigits 1)
      = some ((1700000000 : ℚ) + 1 / 10) := by
    rw [parseFloatChars_digits_head,
      parseUnsignedDec_split 1700000000 (natDigits 1) 1 (parseNatAux_natDigits_zero 1)]
    rw [show (natDigits 1).length = 1 from rfl]
    push_cast
    norm_num
  rw [DateTimeField.datetime_read_eq _ _ hq]
  refine congrArg Except.ok (congrArg some ?_)
  unfold datetime_fromtimestamp
  have hfloor : ⌊(1700000000 : ℚ) + 1 / 10⌋ = (1700000000 : ℤ) := by
    rw [Int.floor_eq_iff]
    constructor <;> norm_num
  rw [hfloor]
  have h2 : (((1700000000 : ℚ) + 1 / 10) - ((1700000000 : ℤ) : ℚ)) * 1000000
      = ((100000 : ℕ) : ℚ) := by
    push_cast
    ring
  rw [h2, round_natCast]
  simp

/-- C1 (amended): `typecast_for_read (typecast_for_storage v)` yields a value
equivalent to `v` for every valid non-None bool, int and date value, for every
float value under the exact-decimal model of Python floats, and for every
datetime value whose microsecond component is 0 or at least 100000 (six
decimal digits); for microseconds in 1..99999 the `"%d.%d"` storage encoding
corrupts the value, as the counterexample shows. -/
theorem C1_roundtrip_amended :
    (∀ b : Bool,
      BooleanField.typecast_for_read (BooleanField.typecast_for_storage (some b)) = .ok b) ∧
    (∀ n : Int,
      IntegerField.typecast_for_read (IntegerField.typecast_for_storage (some n)) = .ok n) ∧
    (∀ f : PyFloat, (∀ d ∈ f.frac, d < 10) →
      FloatField.typecast_for_read (FloatField.typecast_for_storage (some f)) = .ok f.val) ∧
    (∀ d : PyDatetime, d.microsecond < 1000000 →
      (d.microsecond = 0 ∨ 100000 ≤ d.microsecond) →
      ∃ s, DateTimeField.typecast_for_storage (some d) = .ok (some s) ∧
        DateTimeField.typecast_for_read (some s) = .ok (some d)) ∧
    (∀ d : PyDate,
      ∃ s, DateField.typecast_for_storage (some d) = .ok (some s) ∧
        DateField.typecast_for_read (some s) = .ok (some d)) :=
  ⟨BooleanField.roundtrip_bool, IntegerField.roundtrip_int, FloatField.roundtrip_float,
    DateTimeField.roundtrip_datetime, DateField.roundtrip_date⟩

/-- C1 witness: the amended round-trip evaluated at concrete inputs, the float
`3.25` and the datetime with microsecond 500000. -/
theorem C1_roundtrip_amended_witness :
    FloatField.typecast_for_read
        (FloatField.typecast_for_storage (some ⟨false, 3, [2, 5]⟩))
      = .ok (PyFloat.val ⟨false, 3, [2, 5]⟩) ∧
    (∃ s, DateTimeField.typecast_for_storage (some ⟨1700000000, 500000⟩) = .ok (some s) ∧
      DateTimeField.typecast_for_read (some s) = .ok (some ⟨1700000000, 500000⟩)) :=
  ⟨C1_roundtrip_amended.2.2.1 ⟨false, 3, [2, 5]⟩ (by decide),
    C1_roundtrip_amended.2.2.2.1 ⟨1700000000, 500000⟩ (by norm_num)
      (Or.inr (by norm_num))⟩

/-- C2: `typecast_for_storage(None)` is `"0"` for bool/int/float fields, but
for DateTimeField and DateField the isinstance check precedes the dead
`value is None` branch, so `None` raises TypeError instead of producing no
stored value: the claim (and the dead branch showing the intent) disagree
with the code, which fails on `None`. -/
theorem C2_storage_of_none_eval :
    BooleanField.typecast_for_storage none = "0" ∧
    IntegerField.typecast_for_storage none = "0" ∧
    FloatField.typecast_for_storage none = "0" ∧
    DateTimeField.typecast_for_storage none = .error .typeError ∧
    DateField.typecast_for_storage none = .error .typeError := by
  refine ⟨rfl, rfl, rfl, rfl, rfl⟩

/-- C3: a raw string that cannot be parsed as a float makes `float(value)`
raise ValueError, and the Python 2 clause `except TypeError, ValueError`
catches only TypeError, so the ValueError propagates out of
`typecast_for_read` instead of degrading to None; only TypeError failures
(a non-string such as None) degrade to None. -/
theorem C3_read_failure_eval :
    DateTimeField.typecast_for_read (some "abc") = .error .valueError ∧
    DateField.typecast_for_read (some "abc") = .error .valueError ∧
    DateTimeField.typecast_for_read none = .ok none ∧
    DateField.typecast_for_read none = .ok none := by
  refine ⟨by decide, by decide, rfl, rfl⟩

/-! ## ReferenceField (attributes.py lines 230-297)

A related model instance is modelled by its identifier; `objects.get_by_id`
is an arbitrary lookup function into the store.  The owning instance carries
the `attname` slot: `none` models the attribute being absent (so `getattr`
raises AttributeError), `some idv` models it holding `idv` (itself an
optional identifier, since the slot may hold Python `None`). -/

structure RModel where
  id : Nat
deriving DecidableEq

/-- A value assigned to a ReferenceField: Python `None`, an instance of
`target_type`, or a value of any other type. -/
inductive RefAssign where
  | pynone
  | instance_of_target (m : RModel)
  | other_value
deriving DecidableEq

/-- `isinstance(value, self.value_type())` for a ReferenceField assignment. -/
def RefAssign.isinstance_target : RefAssign → Bool
  | .instance_of_target _ => true
  | _ => false

/-- The attribute access `value.id`: AttributeError on `None` (and on a value
of a type without an `id` attribute; that case is unreachable in `__set__`). -/
def RefAssign.id_attr : RefAssign → Except PyErr Nat
  | .instance_of_target m => .ok m.id
  | _ => .error .attributeError

/-- The per-instance state a ReferenceField touches: the `attname` slot. -/
structure RefInstance where
  attSlot : Option (Option Nat)
deriving DecidableEq

/-- ReferenceField.__set__ (lines 249-253): raise TypeError unless the value
is an instance of the target type or None, then unconditionally run
`setattr(instance, self.attname, value.id)` — which dereferences `value.id`
and therefore raises AttributeError when the value is None. -/
def ReferenceField.set (inst : RefInstance) (value : RefAssign) :
    Except PyErr RefInstance :=
  if ¬ value.isinstance_target ∧ value ≠ RefAssign.pynone then .error .typeError
  else
    match value.id_attr with
    | .ok i => .ok { inst with attSlot := some (some i) }
    | .error e => .error e

/-- The state a ReferenceField.__get__ reads and writes on the DESCRIPTOR
object itself (`self`): the resolution cache stored under `'_' + self.name`
on `self`, shared by every instance of the owning model, plus the field's
default. -/
structure RefFieldState where
  cache : Option (Option RModel)
  default : Option RModel
deriving DecidableEq

/-- ReferenceField.__get__ (lines 255-264): if `self` has no cached object,
resolve `get_by_id(getattr(instance, self.attname))` and cache it ON THE
DESCRIPTOR; a missing `attname` attribute raises AttributeError, caught by
caching and returning the default.  Returns the value and the updated
descriptor state. -/
def ReferenceField.get (lookup : Option Nat → Option RModel)
    (f : RefFieldState) (inst : RefInstance) : Option RModel × RefFieldState :=
  match f.cache with
  | some o => (o, f)
  | none =>
    match inst.attSlot with
    | none => (f.default, { f with cache := some f.default })
    | some idv => (lookup idv, { f with cache := some (lookup idv) })

/-! ## ListField (attributes.py lines 158-227)

Two views of `__get__` are modelled.  For a model-typed target, the value
flow (which identifiers resolve, in which order).  For a primitive target,
object identity: lists live in a heap of list objects so that the claim
about copying the default can be stated. -/

/-- The per-instance state a model-target ListField.__get__ touches:
the `'_' + name` cache, `is_new()`, and the backing list members. -/
structure ListModelInstance where
  cached : Option (List RModel)
  isNew : Bool
  backing : List String
deriving DecidableEq

/-- ListField.__get__ for a model-typed target (lines 175-191): cached value
if present, else the default (new instance) or the backing list members, each
identifier resolved through `get_by_id` with unresolved ones dropped by
`filter(lambda o: o is not None, ...)`; the result is cached on the
instance. -/
def ListField.get_model (lookup : String → Option RModel) (default : List String)
    (inst : ListModelInstance) : List RModel × ListModelInstance :=
  match inst.cached with
  | some v => (v, inst)
  | none =>
    let val := if inst.isNew then default else inst.backing
    let resolved := (val.map (fun v => lookup v)).filterMap id
    (resolved, { inst with cached := some resolved })

/-- A heap of list objects: `next` is the next fresh address, `mem` the
contents at each address. -/
structure Heap (α : Type) where
  next : Nat
  mem : Nat → List α

/-- Allocate a fresh list object. -/
def Heap.alloc {α : Type} (h : Heap α) (xs : List α) : Nat × Heap α :=
  (h.next, { next := h.next + 1, mem := fun a => if a = h.next then xs else h.mem a })

/-- Mutate the list object at `addr` in place. -/
def Heap.write {α : Type} (h : Heap α) (addr : Nat) (xs : List α) : Heap α :=
  { h with mem := fun a => if a = addr then xs else h.mem a }

/-- The per-instance state a primitive-target ListField.__get__ touches: the
`'_' + name` cache (a reference to a list object), `is_new()`, and a
reference to the backing list. -/
structure ListStrInstance where
  cachedRef : Option Nat
  isNew : Bool
  backingRef : Nat
deriving DecidableEq

/-- ListField.__get__ for a primitive `str` target (lines 175-191), with list
object identity made explicit: on a cache miss, `val = self.default` merely
aliases the default list object, but `val = [klass(v) for v in val]` builds a
FRESH list object whose elements are `str(v) = v`; the fresh reference is
cached on the instance and returned. -/
def ListField.get_str (h : Heap String) (defaultRef : Nat) (inst : ListStrInstance) :
    Nat × ListStrInstance × Heap String :=
  match inst.cachedRef with
  | some r => (r, inst, h)
  | none =>
    let val := if inst.isNew then defaultRef else inst.backingRef
    let alloc := h.alloc ((h.mem val).map (fun v => v))
    (alloc.1, { inst with cachedRef := some alloc.1 }, alloc.2)

/-! ## Python values and the validation protocol (lines 51-67, 205-227, 279-297)

Field values seen by `validate` are modelled as one level of Python data:
atoms (None, bool, int, float, str, datetime, date, model instance) and lists
of atoms.  Truthiness, `str()` and `isinstance` follow Python semantics:
`bool` is a subclass of `int` and `datetime` of `date`; model instances
stringify through the default object repr, modelled as a non-blank tag. -/

inductive PyAtom where
  | none
  | bool (b : Bool)
  | int (n : Int)
  | float (f : PyFloat)
  | str (s : String)
  | datetime (d : PyDatetime)
  | date (d : PyDate)
  | model (cls : Nat) (id : Nat)
deriving DecidableEq

inductive PyVal where
  | atom (a : PyAtom)
  | list (xs : List PyAtom)
deriving DecidableEq

/-- The types a field's `value_type()` can denote, plus model classes for
reference targets. -/
inductive PyType where
  | strT
  | intT
  | floatT
  | boolT
  | datetimeT
  | dateT
  | modelT (cls : Nat)
deriving DecidableEq

/-- `isinstance` for atoms, with Python's relevant subclass relations. -/
def PyAtom.isinstance : PyAtom → PyType → Bool
  | .bool _, .boolT => true
  | .bool _, .intT => true
  | .int _, .intT => true
  | .float _, .floatT => true
  | .str _, .strT => true
  | .datetime _, .datetimeT => true
  | .datetime _, .dateT => true
  | .date _, .dateT => true
  | .model c _, .modelT c2 => c = c2
  | _, _ => false

/-- `isinstance` for values: a list is an instance of none of these types. -/
def PyVal.isinstance : PyVal → PyType → Bool
  | .atom a, t => a.isinstance t
  | .list _, _ => false

/-- Python truthiness for atoms. -/
def PyAtom.truthy : PyAtom → Bool
  | .none => false
  | .bool b => b
  | .int n => decide (n ≠ 0)
  | .float f => decide (f.val ≠ 0)
  | .str s => decide (s ≠ "")
  | _ => true

/-- Python truthiness: a list is truthy when nonempty. -/
def PyVal.truthy : PyVal → Bool
  | .atom a => a.truthy
  | .list xs => decide (xs ≠ [])

/-- Python `str()` of an atom.  Datetime, date and model values stringify via
their repr; the exact calendar text is not modelled, only that it is a
non-blank tag (validate only ever tests blankness). -/
def PyAtom.pyStr : PyAtom → String
  | .none => "None"
  | .bool b => if b then "True" else "False"
  | .int n => pyStrInt n
  | .float f => f.render
  | .str s => s
  | .datetime d => ⟨('d' :: 't' :: '-' :: natDigits d.sec) ++ '.' :: natDigits d.microsecond⟩
  | .date d => ⟨'d' :: '-' :: natDigits d.day⟩
  | .model c i => ⟨('m' :: '-' :: natDigits c) ++ ':' :: natDigits i⟩

/-- Python `str()` of a value; a list renders bracketed (its exact element
quoting is immaterial, it is never blank). -/
def PyVal.pyStr : PyVal → String
  | .atom a => a.pyStr
  | .list xs => "[" ++ String.intercalate ", " (xs.map PyAtom.pyStr) ++ "]"

/-- Aggregate validation failure: the ordered list of
`(field_name, message)` pairs carried by FieldValidationError. -/
structure FieldValidationError where
  errors : List (String × String)
deriving DecidableEq

/-- The validate-relevant configuration common to the field kinds: bound
name, required flag, the optional external validator callback, and
`value_type()` (the element target type, for ListField). -/
structure AttrField where
  name : String
  required : Bool
  validator : Option (PyVal → List (String × String))
  vtype : PyType

/-- The errors contributed by an external validator callback:
`r = self.validator(val); if r: errors.extend(r)`. -/
def validator_errors (validator : Option (PyVal → List (String × String)))
    (val : PyVal) : List (String × String) :=
  match validator with
  | some vf => vf val
  | none => []

/-- Attribute.validate, type check (lines 54-56): error only when the value
is truthy and not an instance of `value_type()`. -/
def Attribute.type_errors (f : AttrField) (val : PyVal) : List (String × String) :=
  if val.truthy ∧ ¬ val.isinstance f.vtype then [(f.name, "bad type")] else []

/-- Python whitespace as stripped by `str.strip()`. -/
def pyIsSpace (c : Char) : Bool := [32, 9, 10, 11, 12, 13].contains c.toNat

/-- `not str(val).strip()`: the stringification is all whitespace. -/
def pyStrBlank (s : String) : Bool := s.data.all pyIsSpace

/-- Attribute.validate, required check (lines 57-60): error when required and
the value is None or stringifies to blank (`not str(val).strip()`). -/
def Attribute.required_errors (f : AttrField) (val : PyVal) : List (String × String) :=
  if f.required ∧ (val = .atom .none ∨ pyStrBlank val.pyStr) then [(f.name, "required")]
  else []

/-- The full error list Attribute.validate (lines 51-67) accumulates before
deciding whether to raise. -/
def Attribute.validateErrors (f : AttrField) (val : PyVal) : List (String × String) :=
  Attribute.type_errors f val ++ Attribute.required_errors f val
    ++ validator_errors f.validator val

/-- Attribute.validate (lines 51-67): collect all errors, raise the aggregate
exactly when the list is nonempty. -/
def Attribute.validate (f : AttrField) (val : PyVal) : Except FieldValidationError Unit :=
  if Attribute.validateErrors f val ≠ [] then .error ⟨Attribute.validateErrors f val⟩
  else .ok ()

/-- ListField.validate, type checks (lines 209-215): a truthy non-list is one
`bad type` error; in a truthy list, each element failing `isinstance` against
`value_type()` contributes one `bad type in list` error. -/
def ListField.type_errors (f : AttrField) (val : PyVal) : List (String × String) :=
  if val.truthy then
    match val with
    | .list xs =>
      (xs.filter (fun item => ¬ item.isinstance f.vtype)).map
        (fun _ => (f.name, "bad type in list"))
    | .atom _ => [(f.name, "bad type")]
  else []

/-- ListField.validate, required check (lines 218-220): `if not val`. -/
def ListField.required_errors (f : AttrField) (val : PyVal) : List (String × String) :=
  if f.required ∧ ¬ val.truthy then [(f.name, "required")] else []

/-- The full error list ListField.validate (lines 205-227) accumulates. -/
def ListField.validateErrors (f : AttrField) (val : PyVal) : List (String × String) :=
  ListField.type_errors f val ++ ListField.required_errors f val
    ++ validator_errors f.validator val

/-- ListField.validate (lines 205-227). -/
def ListField.validate (f : AttrField) (val : PyVal) : Except FieldValidationError Unit :=
  if ListField.validateErrors f val ≠ [] then .error ⟨ListField.validateErrors f val⟩
  else .ok ()

/-- ReferenceField.validate, type check (lines 283-285). -/
def ReferenceField.type_errors (f : AttrField) (val : PyVal) : List (String × String) :=
  if val.truthy ∧ ¬ val.isinstance f.vtype then [(f.name, "bad type for reference")]
  else []

/-- ReferenceField.validate, required check (lines 288-290): `if not val`. -/
def ReferenceField.required_errors (f : AttrField) (val : PyVal) : List (String × String) :=
  if f.required ∧ ¬ val.truthy then [(f.name, "required")] else []

/-- The full error list ReferenceField.validate (lines 279-297) accumulates. -/
def ReferenceField.validateErrors (f : AttrField) (val : PyVal) : List (String × String) :=
  ReferenceField.type_errors f val ++ ReferenceField.required_errors f val
    ++ validator_errors f.validator val

/-- ReferenceField.validate (lines 279-297). -/
def ReferenceField.validate (f : AttrField) (val : PyVal) : Except FieldValidationError Unit :=
  if ReferenceField.validateErrors f val ≠ [] then .error ⟨ReferenceField.validateErrors f val⟩
  else .ok ()

/-- Attribute.typecast_for_storage (lines 45-46): `str(value)`, total over all
values. -/
def Attribute.typecast_for_storage (value : PyVal) : String := value.pyStr

/-! ## Claims C4-C10 -/

/-- C4: ReferenceField.__set__ raises TypeError exactly on values that are
neither None nor instances of the target type, and writes the identifier for
instances of the target type — but for None, which the type check accepts,
`value.id` dereferences None and raises AttributeError instead of
succeeding: the code contradicts the claim (and its own type check) at
`None`. -/
theorem C4_reference_set_eval :
    (∀ inst m, ReferenceField.set inst (.instance_of_target m)
        = .ok ⟨some (some m.id)⟩) ∧
    (∀ inst, ReferenceField.set inst .other_value = .error .typeError) ∧
    (∀ inst, ReferenceField.set inst .pynone = .error .attributeError) :=
  ⟨fun _ _ => rfl, fun _ => rfl, fun _ => rfl⟩

/-- C5: a model-target ListField.__get__ on a persisted instance resolves the
backing identifiers in order and silently drops the unresolved ones: with
backing `["1","2","3"]` and `"2"` unresolved, the result is the resolution of
`"1"` followed by that of `"3"`. -/
theorem C5_list_get_drops_unresolved (lookup : String → Option RModel)
    (default : List String) (inst : ListModelInstance) (a b : RModel)
    (hc : inst.cached = none) (hn : inst.isNew = false)
    (hb : inst.backing = ["1", "2", "3"])
    (h1 : lookup "1" = some a) (h2 : lookup "2" = none)
    (h3 : lookup "3" = some b) :
    (ListField.get_model lookup default inst).1 = [a, b] := by
  simp [ListField.get_model, hc, hn, hb, h1, h2, h3]

def c5lookup : String → Option RModel :=
  fun s => if s = "1" then some ⟨1⟩ else if s = "3" then some ⟨3⟩ else none

/-- C5 witness: the resolution evaluated on a concrete store. -/
theorem C5_list_get_drops_unresolved_witness :
    (ListField.get_model c5lookup [] ⟨none, false, ["1", "2", "3"]⟩).1 = [⟨1⟩, ⟨3⟩] :=
  C5_list_get_drops_unresolved c5lookup [] ⟨none, false, ["1", "2", "3"]⟩ ⟨1⟩ ⟨3⟩
    rfl rfl rfl (by decide) (by decide) (by decide)

/-- C6: for each field kind (Attribute and its scalar subclasses, ListField,
ReferenceField), validate accumulates every applicable built-in error
together with every tuple returned by the external validator into one list,
raises the aggregate error carrying exactly that list, and fails exactly when
the list is nonempty. -/
theorem C6_validate_aggregates :
    (∀ f val, Attribute.validateErrors f val
        = Attribute.type_errors f val ++ Attribute.required_errors f val
          ++ validator_errors f.validator val) ∧
    (∀ f val, Attribute.validate f val = .ok () ↔ Attribute.validateErrors f val = []) ∧
    (∀ f val e, Attribute.validate f val = .error e
      → e.errors = Attribute.validateErrors f val) ∧
    (∀ f val, ListField.validateErrors f val
        = ListField.type_errors f val ++ ListField.required_errors f val
          ++ validator_errors f.validator val) ∧
    (∀ f val, ListField.validate f val = .ok () ↔ ListField.validateErrors f val = []) ∧
    (∀ f val e, ListField.validate f val = .error e
      → e.errors = ListField.validateErrors f val) ∧
    (∀ f val, ReferenceField.validateErrors f val
        = ReferenceField.type_errors f val ++ ReferenceField.required_errors f val
          ++ validator_errors f.validator val) ∧
    (∀ f val, ReferenceField.validate f val = .ok ()
      ↔ ReferenceField.validateErrors f val = []) ∧
    (∀ f val e, ReferenceField.validate f val = .error e
      → e.errors = ReferenceField.validateErrors f val) := by
  refine ⟨fun f val => rfl, ?_, ?_, fun f val => rfl, ?_, ?_, fun f val => rfl, ?_, ?_⟩
  · intro f val
    unfold Attribute.validate
    by_cases h : Attribute.validateErrors f val = [] <;> simp [h]
  · intro f val e hval
    unfold Attribute.validate at hval
    by_cases h : Attribute.validateErrors f val = []
    · simp [h] at hval
    · simp [h] at hval
      rw [← hval]
  · intro f val
    unfold ListField.validate
    by_cases h : ListField.validateErrors f val = [] <;> simp [h]
  · intro f val e hval
    unfold ListField.validate at hval
    by_cases h : ListField.validateErrors f val = []
    · simp [h] at hval
    · simp [h] at hval
      rw [← hval]
  · intro f val
    unfold ReferenceField.validate
    by_cases h : ReferenceField.validateErrors f val = [] <;> simp [h]
  · intro f val e hval
    unfold ReferenceField.validate at hval
    by_cases h : ReferenceField.validateErrors f val = []
    · simp [h] at hval
    · simp [h] at hval
      rw [← hval]

def c6field : AttrField :=
  ⟨"age", true, some (fun _ => [("age", "v1"), ("age", "v2")]), .intT⟩

/-- C6 witness: a required int field with a two-tuple validator, applied to a
wrongly typed truthy value, aggregates the built-in type error with both
validator tuples. -/
theorem C6_validate_aggregates_witness :
    (⟨[("age", "bad type"), ("age", "v1"), ("age", "v2")]⟩ :
        FieldValidationError).errors
      = Attribute.validateErrors c6field (.atom (.str "x")) :=
  C6_validate_aggregates.2.2.1 c6field (.atom (.str "x"))
    ⟨[("age", "bad type"), ("age", "v1"), ("age", "v2")]⟩ (by decide)

/-- C7: ReferenceField.__get__ caches the resolved object on the descriptor
itself: after any get (through any instance), the descriptor cache holds the
returned value, and a get on a descriptor with a populated cache returns the
cached value unchanged for EVERY instance and every store content, regardless
of that instance's attname slot. -/
theorem C7_descriptor_cache_shared :
    (∀ lookup f inst, ((ReferenceField.get lookup f inst).2).cache
        = some ((ReferenceField.get lookup f inst).1)) ∧
    (∀ lookup1 lookup2 f i1 i2,
      ReferenceField.get lookup2 (ReferenceField.get lookup1 f i1).2 i2
        = ((ReferenceField.get lookup1 f i1).1,
            (ReferenceField.get lookup1 f i1).2)) := by
  constructor
  · intro lookup f inst
    cases hc : f.cache with
    | some o => simp [ReferenceField.get, hc]
    | none =>
      cases hs : inst.attSlot <;> simp [ReferenceField.get, hc, hs]
  · intro lookup1 lookup2 f i1 i2
    cases hc : f.cache with
    | some o => simp [ReferenceField.get, hc]
    | none =>
      cases hs : i1.attSlot <;> simp [ReferenceField.get, hc, hs]

/-- C8: a primitive-target ListField.__get__ on a new instance allocates a
fresh list object holding the default list's elements, caches the fresh
reference on the instance, leaves the default object untouched, and mutating
the returned object afterwards cannot change the default object. -/
theorem C8_default_copied (h : Heap String) (dref bref : Nat)
    (hwf : dref < h.next) :
    (ListField.get_str h dref ⟨none, true, bref⟩).1 ≠ dref ∧
    (ListField.get_str h dref ⟨none, true, bref⟩).2.1.cachedRef
      = some (ListField.get_str h dref ⟨none, true, bref⟩).1 ∧
    (ListField.get_str h dref ⟨none, true, bref⟩).2.2.mem
        (ListField.get_str h dref ⟨none, true, bref⟩).1 = h.mem dref ∧
    (ListField.get_str h dref ⟨none, true, bref⟩).2.2.mem dref = h.mem dref ∧
    (∀ xs, (((ListField.get_str h dref ⟨none, true, bref⟩).2.2).write
        (ListField.get_str h dref ⟨none, true, bref⟩).1 xs).mem dref = h.mem dref) := by
  have hne : ¬ h.next = dref := by omega
  have hne2 : ¬ dref = h.next := by omega
  refine ⟨?_, ?_, ?_, ?_, ?_⟩ <;>
    simp [ListField.get_str, Heap.alloc, Heap.write, hne, hne2]

def c8heap : Heap String := ⟨1, fun _ => ["a", "b"]⟩

/-- C8 witness: the freshness of the returned reference on a concrete heap
whose default list lives at address 0. -/
theorem C8_default_copied_witness :
    (ListField.get_str c8heap 0 ⟨none, true, 5⟩).1 ≠ 0 :=
  (C8_default_copied c8heap 0 5 (by decide)).1

/-- C9: the built-in type check of Attribute.validate runs only on truthy
values: for every falsy value (None, False, 0, 0.0, the empty string, ...)
no `bad type` error is produced, whatever the declared value type, and with
no external validator no `bad type` pair occurs in the full error list. -/
theorem C9_falsy_skips_typecheck (f : AttrField) (val : PyVal)
    (hv : f.validator = none) (hfalsy : val.truthy = false) :
    (f.name, "bad type") ∉ Attribute.validateErrors f val ∧
    Attribute.type_errors f val = [] := by
  have ht : Attribute.type_errors f val = [] := by
    unfold Attribute.type_errors
    rw [if_neg]
    intro hcontra
    rw [hfalsy] at hcontra
    exact absurd hcontra.1 (by simp)
  refine ⟨?_, ht⟩
  rw [Attribute.validateErrors, ht, hv]
  simp only [List.nil_append, validator_errors, List.append_nil]
  unfold Attribute.required_errors
  split
  · simp
  · simp

def c9field : AttrField := ⟨"flag", false, none, .boolT⟩

/-- C9 witness: the int value 0 on a bool-typed field is falsy and not a bool
instance, yet produces no type error. -/
theorem C9_falsy_skips_typecheck_witness :
    (c9field.name, "bad type") ∉ Attribute.validateErrors c9field (.atom (.int 0)) ∧
    Attribute.type_errors c9field (.atom (.int 0)) = [] :=
  C9_falsy_skips_typecheck c9field (.atom (.int 0)) rfl (by decide)

/-- C10: the base Attribute's typecast_for_storage is total and is exactly
Python `str(value)`, so storing None yields the literal string `"None"`,
not `"0"` and not an omitted value. -/
theorem C10_base_storage_is_str :
    (∀ v : PyVal, Attribute.typecast_for_storage v = v.pyStr) ∧
    Attribute.typecast_for_storage (.atom .none) = "None" ∧
    Attribute.typecast_for_storage (.atom .none) ≠ "0" :=
  ⟨fun _ => rfl, rfl, by decide⟩

end Redisco
